import Mathlib

/-!
Shallow embedding of the iTunes App Store scraper
(itunes_app_scraper/scraper.py) and verification of its specification.

Python JSON-like values are modelled by the inductive type PyVal; Python
exceptions by PyErr; fallible Python expressions by Except PyErr.  The HTTP
transport (requests.get together with .json() / .text) is an explicit
environment parameter of each operation: the embedding of an operation takes
the outcome of each successive transport call as input and also reports how
many transport calls it performed and which sleeps it executed, so that
retry behaviour is observable.  URL strings are carried where a claim
mentions them (collection listing); otherwise the transport environment
abstracts the URL.
-/

set_option autoImplicit false

namespace ITunesScraper

/-- Model of a Python JSON-like value (the values flowing through the
scraper: parsed JSON bodies, app records, identifiers). -/
inductive PyVal where
  | none : PyVal
  | bool : Bool → PyVal
  | int : Int → PyVal
  | str : String → PyVal
  | list : List PyVal → PyVal
  | dict : List (PyVal × PyVal) → PyVal
deriving Repr

/-- Model of the Python exceptions the scraper can raise.  AppStoreException
is the checked failure class of the library (itunes_app_scraper.util);
the class itself is not under src/, modelled from the spec as an exception
carrying a message. -/
inductive PyErr where
  | typeError : PyErr
  | keyError : PyErr
  | indexError : PyErr
  | valueError : PyErr
  | appStoreException : String → PyErr
  | otherError : String → PyErr
deriving Repr, DecidableEq

mutual
/-- Structural equality of PyVal, modelling the == comparisons the scraper
performs (on strings inside list comprehension filters and on dict keys). -/
def pyBeq : PyVal → PyVal → Bool
  | .none, .none => true
  | .bool a, .bool b => a == b
  | .int a, .int b => a == b
  | .str a, .str b => a == b
  | .list a, .list b => pyBeqList a b
  | .dict a, .dict b => pyBeqKVs a b
  | _, _ => false

def pyBeqList : List PyVal → List PyVal → Bool
  | [], [] => true
  | a :: as, b :: bs => pyBeq a b && pyBeqList as bs
  | _, _ => false

def pyBeqKVs : List (PyVal × PyVal) → List (PyVal × PyVal) → Bool
  | [], [] => true
  | a :: as, b :: bs => pyBeq a.1 b.1 && pyBeq a.2 b.2 && pyBeqKVs as bs
  | _, _ => false
end

instance : BEq PyVal := ⟨pyBeq⟩

/-- Python str() of a scalar; containers use repr-style rendering below.
Used to embed the % string interpolation in error messages and in the
flattening of dict-valued fields. -/
def pyStrScalar : PyVal → Option String
  | .none => some ("None")
  | .bool b => some (if b then "True" else "False")
  | .int n => some (toString n)
  | .str s => some s
  | _ => Option.none

mutual
/-- Python repr() of a value (approximate for strings: quoting without
escape handling, enough for every value the claims touch). -/
def pyRepr : PyVal → String
  | .none => "None"
  | .bool b => if b then "True" else "False"
  | .int n => toString n
  | .str s => "'" ++ s ++ "'"
  | .list xs => "[" ++ pyReprList xs ++ "]"
  | .dict kvs => "\x7b" ++ pyReprKVs kvs ++ "\x7d"

def pyReprList : List PyVal → String
  | [] => ""
  | [x] => pyRepr x
  | x :: xs => pyRepr x ++ ", " ++ pyReprList xs

def pyReprKVs : List (PyVal × PyVal) → String
  | [] => ""
  | [kv] => pyRepr kv.1 ++ ": " ++ pyRepr kv.2
  | kv :: kvs => pyRepr kv.1 ++ ": " ++ pyRepr kv.2 ++ ", " ++ pyReprKVs kvs
end

/-- Python str() of any value ("%s" formatting). -/
def pyStr (v : PyVal) : String :=
  match pyStrScalar v with
  | some s => s
  | Option.none => pyRepr v

/-- Python truthiness, as used by the bubbles check and the collection
default. -/
def pyTruthy : PyVal → Bool
  | .none => false
  | .bool b => b
  | .int n => n != 0
  | .str s => s ≠ ""
  | .list xs => !xs.isEmpty
  | .dict kvs => !kvs.isEmpty

/-- Python subscription v[k]: dict key lookup (KeyError on a missing key),
list indexing with negative-index wraparound (IndexError out of range,
TypeError on a non-integer index), single-character string indexing;
everything else is a TypeError. -/
def pySubscript : PyVal → PyVal → Except PyErr PyVal
  | .dict kvs, k =>
    match kvs.find? (fun kv => pyBeq kv.1 k) with
    | some kv => .ok kv.2
    | Option.none => .error .keyError
  | .list xs, .int i =>
    let n : Int := Int.ofNat xs.length
    let j : Int := if i < 0 then i + n else i
    if 0 ≤ j ∧ j < n then
      .ok (xs.getD j.toNat PyVal.none)
    else .error .indexError
  | .list _, _ => .error .typeError
  | .str s, .int i =>
    let n : Int := Int.ofNat s.length
    let j : Int := if i < 0 then i + n else i
    if 0 ≤ j ∧ j < n then
      .ok (.str (String.mk [s.toList.getD j.toNat ' ']))
    else .error .indexError
  | _, _ => .error .typeError

/-- Python item assignment v[k] = x on a dict: replace the value in place
when the key is present, append the pair otherwise; item assignment on any
non-dict value raised here is a TypeError. -/
def pySetItem : PyVal → PyVal → PyVal → Except PyErr PyVal
  | .dict kvs, k, x =>
    if kvs.any (fun kv => pyBeq kv.1 k) then
      .ok (.dict (kvs.map (fun kv => if pyBeq kv.1 k then (kv.1, x) else kv)))
    else
      .ok (.dict (kvs ++ [(k, x)]))
  | _, _, _ => .error .typeError

/-- List-character containment scan used to embed Python substring search
(the needle compared by isPrefixOf at every position of the haystack). -/
def charsContain (needle : List Char) : List Char → Bool
  | [] => needle.isPrefixOf []
  | c :: rest => needle.isPrefixOf (c :: rest) || charsContain needle rest

/-- Python substring containment on strings (the in operator on str). -/
def strContains (haystack needle : String) : Bool :=
  charsContain needle.toList haystack.toList

/-- Python containment x in v: key containment for dicts, element
containment for lists, substring containment for strings (TypeError when a
non-string is searched in a string or the container is not a container). -/
def pyContains : PyVal → PyVal → Except PyErr Bool
  | .dict kvs, k => .ok (kvs.any (fun kv => pyBeq kv.1 k))
  | .list xs, x => .ok (xs.any (fun y => pyBeq y x))
  | .str s, .str t => .ok (strContains s t)
  | .str _, _ => .error .typeError
  | _, _ => .error .typeError

/-- Characters Python int() strips from both ends of its argument. -/
def isPySpace (c : Char) : Bool :=
  c = ' ' || c = '\t' || c = '\n' || c = '\x0d' || c = '\x0b' || c = '\x0c'

/-- Digit run acceptor for Python int(): decimal digits with single
underscores allowed only between digits. -/
def pyDigits (acc : Nat) : List Char → Option Nat
  | [] => some acc
  | '_' :: c :: rest =>
    if c.isDigit then pyDigits (acc * 10 + (c.toNat - 48)) rest else Option.none
  | [c] =>
    if c.isDigit then some (acc * 10 + (c.toNat - 48)) else Option.none
  | c :: c2 :: rest =>
    if c.isDigit then pyDigits (acc * 10 + (c.toNat - 48)) (c2 :: rest) else Option.none

/-- Python int(s) on a string: optional surrounding whitespace, optional
sign, then a decimal digit run; Option.none models ValueError. -/
def pyIntOfString (s : String) : Option Int :=
  let l := (s.toList.dropWhile isPySpace).reverse.dropWhile isPySpace |>.reverse
  let signed : Bool × List Char :=
    match l with
    | '-' :: rest => (true, rest)
    | '+' :: rest => (false, rest)
    | _ => (false, l)
  match signed.2 with
  | [] => Option.none
  | c :: rest =>
    if c.isDigit then
      match pyDigits (c.toNat - 48) rest with
      | some n => some (if signed.1 then -(Int.ofNat n) else Int.ofNat n)
      | Option.none => Option.none
    else Option.none

/-- Left-to-right effectful map over a list, the evaluation order of a
Python list comprehension whose element expression can raise. -/
def exceptMapList {α β : Type} (f : α → Except PyErr β) :
    List α → Except PyErr (List β)
  | [] => .ok []
  | x :: xs =>
    match f x with
    | .error e => .error e
    | .ok y =>
      match exceptMapList f xs with
      | .error e => .error e
      | .ok ys => .ok (y :: ys)

/-- Python str.upper() on the ASCII country codes in scope. -/
def pyUpper (s : String) : String := String.mk (s.toList.map Char.toUpper)

/-- Python str.lower() on the ASCII country codes in scope. -/
def pyLower (s : String) : String := String.mk (s.toList.map Char.toLower)

/-- Modelled from the spec: the AppStoreMarkets table lives in
itunes_app_scraper/util.py, which is not under src/.  Per spec section 2 it
is a static table mapping two-letter country codes (uppercase attribute
names) to storefront numeric identifiers, and per spec section 8 it maps GB
to 143444 and has no entry for XZ.  Representative entries are included;
no claim depends on any entry other than GB, NL and the absence of XZ. -/
def appStoreMarkets : List (String × Int) :=
  [("GB", 143444), ("NL", 143452), ("US", 143441), ("FR", 143442), ("DE", 143443)]

/-- Modelled from the spec: the COUNTRIES default list of util.py is not
under src/; per spec section 4.7 it is a fixed built-in set of mostly
european countries used when no country argument is supplied. -/
def defaultCountries : List String := ["nl", "gb", "de", "fr", "it", "es"]

/-- Modelled from the spec: AppStoreCollections.TOP_FREE_IOS of util.py is
not under src/; it is the named collection constant used as the default
collection descriptor (spec sections 3 and 4.2), a collection-name string
(the behave fixtures exercise the collection named topfreeapplications). -/
def topFreeIOSCollection : String := "topfreeapplications"

/-- Embeds AppStoreScraper.get_store_id_for_country: uppercase the code,
attribute-probe the markets table, raise AppStoreException on a miss. -/
def get_store_id_for_country (country : String) : Except PyErr Int :=
  let up := pyUpper country
  match appStoreMarkets.find? (fun kv => kv.1 = up) with
  | some kv => .ok kv.2
  | Option.none => .error (.appStoreException ("Country code not found for " ++ up))

/-- An observable step of an operation: a fixed-duration sleep or one
transport call (requests.get).  Traces of these events make the retry and
backoff structure of an operation visible. -/
inductive Event where
  | sleep : Int → Event
  | call : Event
deriving Repr, DecidableEq

/-- Events of the optional pre-request throttle sleep(sleep). -/
def sleepEvents : Option Int → List Event
  | some s => [Event.sleep s]
  | Option.none => []

/-- Outcome of one transport call of a JSON endpoint, before the scraper's
own error mapping: a parsed body, a connection-level failure (carrying the
str() of the exception), a JSON decode failure, or any other exception. -/
inductive FetchErr where
  | conn : String → FetchErr
  | jsonDecode : FetchErr
  | otherExc : FetchErr
deriving Repr, DecidableEq

/-- Result of an operation together with the number of transport calls it
performed. -/
structure RunOut (α : Type) where
  result : Except PyErr α
  calls : Nat
deriving Repr

/-- Python slice v[:amount] on a list (None takes everything, a negative
bound counts from the end, clamped at zero). -/
def pySliceTo (v : PyVal) (amount : Option Int) : Except PyErr (List PyVal) :=
  match v with
  | .list xs =>
    let k : Int :=
      match amount with
      | Option.none => Int.ofNat xs.length
      | some a => if a < 0 then Int.ofNat xs.length + a else a
    .ok (xs.take k.toNat)
  | _ => .error .typeError

/-- The response processing of get_app_ids_for_query after the transport
call: the short-circuit bubbles check (either raising the no-results
failure) followed by the sliced id comprehension over the first results
group. -/
def searchExtract (termStr lang : String) (storeId : Int) (amount : Option Int)
    (result : PyVal) : Except PyErr (List PyVal) :=
  match pyContains result (.str ("bubbles")) with
  | .error e => .error e
  | .ok hasBubbles =>
    match (if hasBubbles then
             match pySubscript result (.str ("bubbles")) with
             | .error e => .error e
             | .ok b => .ok (pyTruthy b)
           else .ok false : Except PyErr Bool) with
    | .error e => .error e
    | .ok nonEmpty =>
      if !hasBubbles || !nonEmpty then
        .error (.appStoreException ("No results found for search term " ++ termStr
          ++ " (country " ++ toString storeId ++ ", lang " ++ lang ++ ")"))
      else
        match pySubscript result (.str ("bubbles")) with
        | .error e => .error e
        | .ok bubbles =>
          match pySubscript bubbles (.int 0) with
          | .error e => .error e
          | .ok first =>
            match pySubscript first (.str ("results")) with
            | .error e => .error e
            | .ok results =>
              match pySliceTo results amount with
              | .error e => .error e
              | .ok sliced =>
                exceptMapList (fun app => pySubscript app (.str ("id"))) sliced

/-- Embeds AppStoreScraper.get_app_ids_for_query.  The term is an Option
(None or a string); num and page are Option Int (already int()-converted
numbers or None); resp is the outcome of the single transport call.  Note
the store-front lookup happens after the term check and before the
transport call; except ConnectionError maps to the cannot-connect
AppStoreException, except json.JSONDecodeError to the parse failure, and
any other transport exception propagates. -/
def get_app_ids_for_query (term : Option String) (num page : Option Int)
    (country lang : String) (resp : Except FetchErr PyVal) :
    RunOut (List PyVal) :=
  if term = Option.none ∨ term = some "" then
    ⟨.error (.appStoreException ("No term was given")), 0⟩
  else
    let amount : Option Int :=
      match num, page with
      | Option.none, _ => Option.none
      | _, Option.none => Option.none
      | some n, some p => some (n * p)
    match get_store_id_for_country country with
    | .error e => ⟨.error e, 0⟩
    | .ok storeId =>
      match resp with
      | .error (.conn msg) =>
        ⟨.error (.appStoreException ("Cannot connect to store: " ++ msg)), 1⟩
      | .error .jsonDecode =>
        ⟨.error (.appStoreException ("Could not parse app store response")), 1⟩
      | .error .otherExc => ⟨.error (.otherError ("requests exception")), 1⟩
      | .ok result =>
        ⟨searchExtract (term.getD "") lang storeId amount result, 1⟩

/-- Embeds AppStoreScraper.get_app_ids_for_collection.  Returns the built
chart URL alongside the run outcome; the country is lowercased into the URL
and the storefront table is never consulted.  Only json.JSONDecodeError is
mapped to the parse AppStoreException; other transport exceptions
propagate. -/
def get_app_ids_for_collection (collection category : String) (num : Int)
    (country : String) (resp : Except FetchErr PyVal) :
    String × RunOut PyVal :=
  let coll := if collection = "" then topFreeIOSCollection else collection
  let url := "https://itunes.apple.com/WebObjects/MZStoreServices.woa/ws/charts?cc="
    ++ pyLower country ++ "&g=" ++ category ++ "&name=" ++ coll
    ++ "&limit=" ++ toString num
  match resp with
  | .error .jsonDecode =>
    (url, ⟨.error (.appStoreException ("Could not parse app store response")), 1⟩)
  | .error _ => (url, ⟨.error (.otherError ("requests exception")), 1⟩)
  | .ok result => (url, ⟨pySubscript result (.str ("resultIds")), 1⟩)

/-- Embeds AppStoreScraper.get_apps_for_developer: one lookup GET, parse
failure mapped to the parse AppStoreException, then the software-filtered
comprehension over the results key when present, the empty list
otherwise. -/
def get_apps_for_developer (resp : Except FetchErr PyVal) :
    RunOut (List PyVal) :=
  match resp with
  | .error .jsonDecode =>
    ⟨.error (.appStoreException ("Could not parse app store response")), 1⟩
  | .error _ => ⟨.error (.otherError ("requests exception")), 1⟩
  | .ok result =>
    match pyContains result (.str ("results")) with
    | .error e => ⟨.error e, 1⟩
    | .ok true =>
      match pySubscript result (.str ("results")) with
      | .error e => ⟨.error e, 1⟩
      | .ok (.list apps) => ⟨softwareFilter apps, 1⟩
      | .ok _ => ⟨.error .typeError, 1⟩
    | .ok false => ⟨.ok [], 1⟩
where
  /-- The comprehension keeping records whose wrapperType equals software. -/
  softwareFilter : List PyVal → Except PyErr (List PyVal)
    | [] => .ok []
    | app :: rest => do
      let w ← pySubscript app (.str ("wrapperType"))
      let tail ← softwareFilter rest
      if pyBeq w (.str ("software")) then pure (app :: tail) else pure tail

/-- Embeds AppStoreScraper.get_app_ids_for_developer: calls
get_apps_for_developer and, when the returned list of apps is non-empty,
evaluates the comprehension over apps subscripted with the results string —
a subscription of a Python list by a string. -/
def get_app_ids_for_developer (resp : Except FetchErr PyVal) :
    RunOut (List PyVal) :=
  let inner := get_apps_for_developer resp
  match inner.result with
  | .error e => ⟨.error e, inner.calls⟩
  | .ok apps =>
    if apps.length > 0 then
      match pySubscript (.list apps) (.str ("results")) with
      | .error e => ⟨.error e, inner.calls⟩
      | .ok (.list rs) => ⟨trackIds rs, inner.calls⟩
      | .ok _ => ⟨.error .typeError, inner.calls⟩
    else ⟨.ok [], inner.calls⟩
where
  /-- The comprehension extracting trackId of software-typed entries. -/
  trackIds : List PyVal → Except PyErr (List PyVal)
    | [] => .ok []
    | app :: rest => do
      let w ← pySubscript app (.str ("wrapperType"))
      let tail ← trackIds rest
      if pyBeq w (.str ("software")) then do
        let t ← pySubscript app (.str ("trackId"))
        pure (t :: tail)
      else pure tail

/-- The literal head of the similar-apps extraction pattern
customersAlsoBoughtApps\":\s*(\[[^\]]+\]) — the marker followed by a double
quote and a colon. -/
def blobPatternHead : List Char := ("customersAlsoBoughtApps\":").toList

/-- Attempts the extraction pattern at the current position: the literal
head, then any run of whitespace, then a bracket-bounded run of non-bracket
characters; returns the captured group (the bracketed text). -/
def blobAt (l : List Char) : Option (List Char) :=
  if blobPatternHead.isPrefixOf l then
    let rest := (l.drop blobPatternHead.length).dropWhile (fun c => isPySpace c)
    match rest with
    | '[' :: r =>
      let content := r.takeWhile (fun c => c ≠ ']')
      if content.isEmpty then Option.none
      else
        match r.drop content.length with
        | ']' :: _ => some ('[' :: (content ++ [']']))
        | _ => Option.none
    | _ => Option.none
  else Option.none

/-- Leftmost match scan of re.search for the extraction pattern: tries the
pattern at every position from the left, returns the first captured
group. -/
def blobScan : List Char → Option (List Char)
  | [] => Option.none
  | c :: rest =>
    match blobAt (c :: rest) with
    | some g => some g
    | Option.none => blobScan rest

/-- Embeds re.search of the pattern customersAlsoBoughtApps\":\s*(\[[^\]]+\])
over the page text, yielding group 1 (blob[1] in the source) when a match
exists. -/
def regexSearchBlob (text : String) : Option String :=
  (blobScan text.toList).map (fun g => String.mk g)

/-- Embeds AppStoreScraper.get_similar_app_ids_for_app.  The transport
returns the raw page text (requests.get(...).text raises are not caught by
the source, so a transport failure propagates); json.loads is the external
JSON parser, passed as an argument J whose error case models
json.JSONDecodeError. -/
def get_similar_app_ids_for_app (app_id : PyVal) (country lang : String)
    (fetch : Except Unit String) (J : String → Except Unit PyVal) :
    RunOut PyVal :=
  let _url := "https://itunes.apple.com/us/app/app/id" ++ pyStr app_id
  let _lang := lang
  match get_store_id_for_country country with
  | .error e => ⟨.error e, 0⟩
  | .ok _storeId =>
    match fetch with
    | .error _ => ⟨.error (.otherError ("requests exception")), 1⟩
    | .ok text =>
      if !(strContains text ("customersAlsoBoughtApps")) then ⟨.ok (.list []), 1⟩
      else
        match regexSearchBlob text with
        | Option.none => ⟨.ok (.list []), 1⟩
        | some blob =>
          match J blob with
          | .error _ => ⟨.ok (.list []), 1⟩
          | .ok ids => ⟨.ok ids, 1⟩

/-- The literal opening tag of the star-rating regex of Regex.STARS. -/
def starOpenTag : List Char := ("<span class=\"total\">").toList

/-- The literal closing tag of the star-rating regex. -/
def starCloseTag : List Char := ("</span>").toList

/-- Splits a character list at the first occurrence of the closing tag:
returns the content before it and the remainder after it.  Fuel-indexed
structural recursion; fuel at least the list length makes it total. -/
def splitAtClose : Nat → List Char → Option (List Char × List Char)
  | 0, _ => Option.none
  | _, [] => Option.none
  | fuel + 1, c :: rest =>
    if starCloseTag.isPrefixOf (c :: rest) then
      some ([], (c :: rest).drop starCloseTag.length)
    else
      match splitAtClose fuel rest with
      | some (content, after) => some (c :: content, after)
      | Option.none => Option.none

/-- Embeds Regex.STARS.findall: leftmost, non-overlapping, lazy matches of
the pattern literal-open [\s\S]*? literal-close; each returned match is the
whole matched text.  When an opening tag has no closing tag after it, no
later position can match either (the closing tag occurs nowhere in the
remaining text), so the scan ends. -/
def findStars : Nat → List Char → List (List Char)
  | 0, _ => []
  | _, [] => []
  | fuel + 1, c :: rest =>
    if starOpenTag.isPrefixOf (c :: rest) then
      let after := (c :: rest).drop starOpenTag.length
      match splitAtClose after.length after with
      | some (content, afterClose) =>
        (starOpenTag ++ content ++ starCloseTag) :: findStars fuel afterClose
      | Option.none => []
    else findStars fuel rest

/-- Replaces every occurrence of a needle by a replacement, leftmost first,
non-overlapping, as Python str.replace does.  Fuel-indexed; fuel at least
the list length makes it total for non-empty needles. -/
def pyReplaceChars (needle repl : List Char) : Nat → List Char → List Char
  | 0, l => l
  | _, [] => []
  | fuel + 1, c :: rest =>
    if needle.isPrefixOf (c :: rest) then
      repl ++ pyReplaceChars needle repl fuel ((c :: rest).drop needle.length)
    else c :: pyReplaceChars needle repl fuel rest

/-- One match of the star regex stripped of the opening and closing tags
(the two str.replace calls of _parse_rating) and int()-converted. -/
def starValue (m : List Char) : Option Int :=
  let v1 := pyReplaceChars starOpenTag [] m.length m
  let v2 := pyReplaceChars starCloseTag [] v1.length v1
  pyIntOfString (String.mk v2)

/-- The five-bucket star histogram: counts for stars 1, 2, 3, 4 and 5, in
that component order (the insertion order of the dataset dict of
get_app_ratings). -/
abbrev Hist := Int × Int × Int × Int × Int

/-- The all-zero histogram the aggregation starts from. -/
def histZero : Hist := (0, 0, 0, 0, 0)

/-- The PyVal dict a histogram stands for, with integer star keys 1..5 in
insertion order. -/
def histToPyVal (h : Hist) : PyVal :=
  .dict [(.int 1, .int h.1), (.int 2, .int h.2.1), (.int 3, .int h.2.2.1),
         (.int 4, .int h.2.2.2.1), (.int 5, .int h.2.2.2.2)]

/-- Embeds AppStoreScraper._parse_rating: five regex matches are required
(anything else yields None, not an error); the matches are consumed in
star-5-down-to-star-1 order; a non-numeric stripped value is a ValueError
(uncaught in the source, modelled as an error). -/
def parse_rating (text : String) : Except PyErr (Option Hist) :=
  let ms := findStars text.length text.toList
  if ms.length ≠ 5 then .ok Option.none
  else
    match ms with
    | [m5, m4, m3, m2, m1] =>
      match starValue m5, starValue m4, starValue m3, starValue m2, starValue m1 with
      | some v5, some v4, some v3, some v2, some v1 =>
        .ok (some (v1, v2, v3, v4, v5))
      | _, _, _, _, _ => .error .valueError
    | _ => .ok Option.none

/-- The per-country aggregation loop of get_app_ratings: resolve the
storefront id (an unknown country raises out of the whole operation), fetch
the reviews page with the one-retry backoff, parse it, and add a five-match
histogram into the accumulator; a page without exactly five matches
contributes nothing.  Also returns the event trace (sleeps and transport
calls) of the processed prefix. -/
def ratingsLoop (app_id : PyVal) (sleep : Option Int)
    (pages : String → Nat → Except Unit String) :
    List String → Hist → Except PyErr Hist × List Event
  | [], acc => (.ok acc, [])
  | c :: cs, acc =>
    match get_store_id_for_country c with
    | .error e => (.error e, [])
    | .ok _sid =>
      let fetched : Except PyErr String × List Event :=
        match pages c 0 with
        | .ok t => (.ok t, sleepEvents sleep ++ [Event.call])
        | .error _ =>
          match pages c 1 with
          | .ok t =>
            (.ok t, sleepEvents sleep ++ [Event.call, Event.sleep 2, Event.call])
          | .error _ =>
            (.error (.appStoreException
                ("Could not parse app store rating response for ID " ++ pyStr app_id)),
             sleepEvents sleep ++ [Event.call, Event.sleep 2, Event.call])
      match fetched with
      | (.error e, ev) => (.error e, ev)
      | (.ok text, ev) =>
        match parse_rating text with
        | .error e => (.error e, ev)
        | .ok Option.none =>
          let rest := ratingsLoop app_id sleep pages cs acc
          (rest.1, ev ++ rest.2)
        | .ok (some h) =>
          let rest := ratingsLoop app_id sleep pages cs (acc + h)
          (rest.1, ev ++ rest.2)

/-- Embeds AppStoreScraper.get_app_ratings: the dataset starts at the
all-zero histogram; a missing countries argument selects the built-in
default list, a single string becomes a one-element list; then the
per-country loop runs.  The transport environment gives, per country and
per attempt, the outcome of requests.get(...).text. -/
def get_app_ratings (app_id : PyVal) (countries : Option (String ⊕ List String))
    (sleep : Option Int) (pages : String → Nat → Except Unit String) :
    Except PyErr Hist × List Event :=
  let cs :=
    match countries with
    | Option.none => defaultCountries
    | some (.inl c) => [c]
    | some (.inr l) => l
  ratingsLoop app_id sleep pages cs histZero

/-- The identifier normalization at the head of get_app_details: int()
conversion attempted with only ValueError caught (so a non-numeric,
non-string value is an uncaught TypeError); success selects the id field,
failure the bundleId field. -/
def normalizeAppId : PyVal → Except PyErr (PyVal × String)
  | .int n => .ok (.int n, "id")
  | .bool b => .ok (.int (if b then 1 else 0), "id")
  | .str s =>
    match pyIntOfString s with
    | some n => .ok (.int n, "id")
    | Option.none => .ok (.str s, "bundleId")
  | _ => .error .typeError

/-- The transport try/except of get_app_details: optional throttle sleep,
one GET-and-parse attempt; on any exception a fixed backoff sleep of 2 and
exactly one further attempt; a second failure is the terminal checked
failure naming the (normalized) app id. -/
def detailsFetch (sleep : Option Int) (att : Nat → Except Unit PyVal)
    (idNorm : PyVal) : Except PyErr PyVal × List Event :=
  match att 0 with
  | .ok r => (.ok r, sleepEvents sleep ++ [Event.call])
  | .error _ =>
    match att 1 with
    | .ok r => (.ok r, sleepEvents sleep ++ [Event.call, Event.sleep 2, Event.call])
    | .error _ =>
      (.error (.appStoreException
          ("Could not parse app store response for ID " ++ pyStr idNorm)),
       sleepEvents sleep ++ [Event.call, Event.sleep 2, Event.call])

/-- The result extraction of get_app_details: result["results"][0] with
KeyError and IndexError mapped to the not-found AppStoreException naming
the (normalized) app id; any other failure (such as a TypeError on a
non-dict body) propagates. -/
def detailsExtract (result idNorm : PyVal) : Except PyErr PyVal :=
  match (do
      let r ← pySubscript result (.str ("results"))
      pySubscript r (.int 0) : Except PyErr PyVal) with
  | .ok app => .ok app
  | .error .keyError =>
    .error (.appStoreException ("No app found with ID " ++ pyStr idNorm))
  | .error .indexError =>
    .error (.appStoreException ("No app found with ID " ++ pyStr idNorm))
  | .error e => .error e

/-- Python ",".join over a list value: every element must be a string,
otherwise the join is a TypeError (modelled as Option.none). -/
def joinWithComma : List PyVal → Option String
  | [] => some ""
  | [.str s] => some s
  | .str s :: x :: rest => (joinWithComma (x :: rest)).map (fun t => s ++ "," ++ t)
  | _ => Option.none

/-- The ", ".join of "%s star: %s" pairs applied to a dict-valued field. -/
def joinKVStars : List (PyVal × PyVal) → String
  | [] => ""
  | [kv] => pyStr kv.1 ++ " star: " ++ pyStr kv.2
  | kv :: rest => pyStr kv.1 ++ " star: " ++ pyStr kv.2 ++ ", " ++ joinKVStars rest

/-- The per-field flattening conversion of get_app_details: a list-valued
field becomes the comma-joined string of its (string) elements, a
dict-valued field becomes the joined "key star: value" string, any other
value is left unchanged. -/
def flattenField : PyVal → Except PyErr PyVal
  | .list xs =>
    match joinWithComma xs with
    | some s => .ok (.str s)
    | Option.none => .error .typeError
  | .dict kvs => .ok (.str (joinKVStars kvs))
  | v => .ok v

/-- The flattening loop over the fields of an app record (a mapping):
each field value is converted by flattenField, keys and field order are
preserved. -/
def flattenRecord : List (PyVal × PyVal) → Except PyErr (List (PyVal × PyVal))
  | [] => .ok []
  | kv :: rest =>
    match flattenField kv.2 with
    | .error e => .error e
    | .ok w =>
      match flattenRecord rest with
      | .error e => .error e
      | .ok tail => .ok ((kv.1, w) :: tail)

/-- The flatten step applied to the extracted app value.  App records are
mappings; on a non-mapping the Python field loop either performs no
iterations (empty list or empty string, returning the value unchanged) or
fails with a TypeError on the item access app[field] (string fields index a
str with a str; list elements of the responses in scope are non-integers).
Lists whose elements are all in-range integers are not reachable from any
claim and are modelled as the same TypeError. -/
def flattenApp : PyVal → Except PyErr PyVal
  | .dict kvs => (flattenRecord kvs).map .dict
  | .list [] => .ok (.list [])
  | .str s => if s = "" then .ok (.str s) else .error .typeError
  | _ => .error .typeError

/-- The outcome of one get_app_details call: the result, the trace of
sleeps and transport calls, and the error-log lines written (country key
and message), in order. -/
structure DetOut where
  result : Except PyErr PyVal
  events : List Event
  logs : List (String × String)
deriving Repr

/-- Embeds AppStoreScraper.get_app_details.  The transport environment att
gives the outcome of each successive requests.get(url).json() attempt (the
URL, including the cache-busting token when force is set, is abstracted
into the environment); pages is the transport of the nested ratings
operation.  A ratings AppStoreException is caught: the incident is logged
under the country and the record gets the sentinel string; any other
ratings failure propagates. -/
def get_app_details (app_id : PyVal) (country lang : String)
    (add_ratings flatten : Bool) (sleep : Option Int) (force : Bool)
    (att : Nat → Except Unit PyVal)
    (pages : String → Nat → Except Unit String) : DetOut :=
  let _lang := lang
  let _cacheBust := force
  match normalizeAppId app_id with
  | .error e => ⟨.error e, [], []⟩
  | .ok (idNorm, _idField) =>
    match detailsFetch sleep att idNorm with
    | (.error e, ev) => ⟨.error e, ev, []⟩
    | (.ok result, ev) =>
      match detailsExtract result idNorm with
      | .error e => ⟨.error e, ev, []⟩
      | .ok app =>
        let withRatings : Except PyErr PyVal × List Event × List (String × String) :=
          if add_ratings then
            let ro := get_app_ratings idNorm (some (Sum.inl country)) (some 1) pages
            match ro.1 with
            | .ok h =>
              (pySetItem app (.str ("user_ratings")) (histToPyVal h), ro.2, [])
            | .error (.appStoreException _) =>
              (pySetItem app (.str ("user_ratings"))
                 (.str ("Error; unable to collect ratings")),
               ro.2, [(country, "Unable to collect ratings for " ++ pyStr idNorm)])
            | .error e => (.error e, ro.2, [])
          else (.ok app, [], [])
        match withRatings with
        | (.error e, ev2, lg) => ⟨.error e, ev ++ ev2, lg⟩
        | (.ok app2, ev2, lg) =>
          ⟨if flatten then flattenApp app2 else .ok app2, ev ++ ev2, lg⟩

/-- Embeds AppStoreScraper.get_multiple_app_details (the generator, fully
consumed): one get_app_details call per identifier in input order with the
flatten default (True); a per-item AppStoreException is written to the
country-keyed error log (str of the exception is its message) and the item
is skipped; any other per-item exception propagates out of the iteration.
Returns the yielded records and the accumulated log lines. -/
def get_multiple_app_details (app_ids : List PyVal) (country lang : String)
    (add_ratings : Bool) (sleep : Option Int) (force : Bool)
    (att : PyVal → Nat → Except Unit PyVal)
    (pages : PyVal → String → Nat → Except Unit String) :
    Except PyErr (List PyVal) × List (String × String) :=
  match app_ids with
  | [] => (.ok [], [])
  | a :: rest =>
    let d := get_app_details a country lang add_ratings true sleep force (att a) (pages a)
    match d.result with
    | .ok v =>
      let r := get_multiple_app_details rest country lang add_ratings sleep force att pages
      ((r.1).map (fun l => v :: l), d.logs ++ r.2)
    | .error (.appStoreException m) =>
      let r := get_multiple_app_details rest country lang add_ratings sleep force att pages
      (r.1, d.logs ++ [(country, m)] ++ r.2)
    | .error e => (.error e, d.logs)

/-!  ## Verification  -/

/-- The app-identifier domain of the data model (spec section 3): a
positive integer track ID, or a bundle-identifier string, which by the
disambiguation rule is a string on which the integer parse fails. -/
def validAppIdentifier : PyVal → Prop
  | .int n => 0 < n
  | .str s => pyIntOfString s = Option.none
  | _ => False

/-- On a valid app identifier the normalization of get_app_details is the
identity: an integer stays itself (id field), a bundle string stays itself
(bundleId field). -/
theorem normalizeAppId_valid (v : PyVal) (hv : validAppIdentifier v) :
    ∃ f, normalizeAppId v = .ok (v, f) := by
  cases v with
  | int n => exact ⟨"id", rfl⟩
  | str s =>
    refine ⟨"bundleId", ?_⟩
    have hs : pyIntOfString s = Option.none := hv
    simp [normalizeAppId, hs]
  | none => exact absurd hv (by simp [validAppIdentifier])
  | bool b => exact absurd hv (by simp [validAppIdentifier])
  | list xs => exact absurd hv (by simp [validAppIdentifier])
  | dict kvs => exact absurd hv (by simp [validAppIdentifier])

/-- C7: for the empty or absent search term, get_app_ids_for_query raises
the checked invalid-input failure (No term was given) before any network
request: the transport call count of the run is zero. -/
theorem c7_empty_term_no_network (term : Option String)
    (h : term = Option.none ∨ term = some "") (num page : Option Int)
    (country lang : String) (resp : Except FetchErr PyVal) :
    get_app_ids_for_query term num page country lang resp
      = ⟨.error (.appStoreException ("No term was given")), 0⟩ := by
  rcases h with h | h <;> subst h <;> simp [get_app_ids_for_query]

/-- Witness for C7 at a concrete input: the absent term with a transport
environment that would answer successfully is rejected without any call. -/
theorem c7_empty_term_no_network_witness :
    get_app_ids_for_query Option.none (some 50) (some 1) "nl" "nl"
        (.ok (.dict []))
      = ⟨.error (.appStoreException ("No term was given")), 0⟩ :=
  c7_empty_term_no_network Option.none (Or.inl rfl) (some 50) (some 1)
    "nl" "nl" (.ok (.dict []))

/-- A developer lookup response carrying exactly one software-typed app
record. -/
def devRespOneApp : PyVal :=
  .dict [(.str ("resultCount"), .int 1),
         (.str ("results"),
          .list [.dict [(.str ("wrapperType"), .str ("software")),
                        (.str ("trackId"), .int 1444383602)]])]

/-- C6 (code bug): on a lookup response with one software app,
get_apps_for_developer returns the record, but get_app_ids_for_developer
raises a TypeError — it subscripts the already-filtered Python list with
the string results — instead of returning the track-identifier list its
docstring and the spec promise; the zero-apps soft-fail paths do return the
empty list. -/
theorem c6_developer_ids_type_error :
    (get_apps_for_developer (.ok devRespOneApp)).result
        = .ok [.dict [(.str ("wrapperType"), .str ("software")),
                      (.str ("trackId"), .int 1444383602)]]
  ∧ (get_app_ids_for_developer (.ok devRespOneApp)).result = .error .typeError
  ∧ (get_app_ids_for_developer
        (.ok (.dict [(.str ("resultCount"), .int 0),
                     (.str ("results"), .list [])]))).result = .ok []
  ∧ (get_app_ids_for_developer
        (.ok (.dict [(.str ("errorMessage"),
                      .str ("Invalid value"))]))).result = .ok [] :=
  ⟨rfl, rfl, rfl, rfl⟩

/-- A value with no list or mapping structure (a scalar field value). -/
def isScalarPy : PyVal → Bool
  | .list _ => false
  | .dict _ => false
  | _ => true

/-- The flattening conversion leaves a scalar value unchanged. -/
theorem flattenField_scalar (v : PyVal) (h : isScalarPy v = true) :
    flattenField v = .ok v := by
  cases v <;> simp [isScalarPy] at h <;> rfl

/-- A successful flattening conversion yields a scalar value. -/
theorem flattenField_ok_scalar (v w : PyVal) (h : flattenField v = .ok w) :
    isScalarPy w = true := by
  cases v with
  | list xs =>
    simp only [flattenField] at h
    cases hj : joinWithComma xs with
    | none => rw [hj] at h; exact absurd h (by simp)
    | some s => rw [hj] at h; cases h; rfl
  | dict kvs => cases h; rfl
  | none => cases h; rfl
  | bool b => cases h; rfl
  | int n => cases h; rfl
  | str s => cases h; rfl

/-- Unfolding equation of the record-flattening loop on a non-empty
record. -/
theorem flattenRecord_cons (kv : PyVal × PyVal) (rest : List (PyVal × PyVal)) :
    flattenRecord (kv :: rest)
      = (flattenField kv.2).bind (fun w =>
          (flattenRecord rest).bind (fun tail => .ok ((kv.1, w) :: tail))) := by
  simp only [flattenRecord]
  cases hf : flattenField kv.2 with
  | error e => rfl
  | ok w =>
    cases hr : flattenRecord rest with
    | error e => rfl
    | ok tail => rfl

/-- A record all of whose field values are scalar flattens to itself. -/
theorem flattenRecord_scalar (kvs : List (PyVal × PyVal))
    (h : ∀ kv ∈ kvs, isScalarPy kv.2 = true) : flattenRecord kvs = .ok kvs := by
  induction kvs with
  | nil => rfl
  | cons kv rest ih =>
    have hkv := flattenField_scalar kv.2 (h kv (List.mem_cons_self kv rest))
    have hrest := ih (fun x hx => h x (List.mem_cons_of_mem kv hx))
    rw [flattenRecord_cons, hkv, hrest]
    simp [Except.bind]

/-- A record that flattens successfully is a fixed point of flattening. -/
theorem flattenRecord_fixed (kvs b : List (PyVal × PyVal))
    (hb : flattenRecord kvs = .ok b) : flattenRecord b = .ok b := by
  induction kvs generalizing b with
  | nil => cases hb; rfl
  | cons kv rest ih =>
    rw [flattenRecord_cons] at hb
    cases hf : flattenField kv.2 with
    | error e => rw [hf] at hb; exact absurd hb (by simp [Except.bind])
    | ok w =>
      rw [hf] at hb
      cases hr : flattenRecord rest with
      | error e => rw [hr] at hb; exact absurd hb (by simp [Except.bind])
      | ok tail =>
        rw [hr] at hb
        simp only [Except.bind] at hb
        cases hb
        have hw := flattenField_scalar w (flattenField_ok_scalar kv.2 w hf)
        rw [flattenRecord_cons, hw, ih tail hr]
        rfl

/-- C9: the flattening step of get_app_details is idempotent: a record all
of whose field values are scalar is returned unchanged; a record that
flattens successfully is a fixed point of flattening; hence flattening
twice equals flattening once on every record. -/
theorem c9_flatten_idempotent :
    (∀ kvs : List (PyVal × PyVal),
        (∀ kv ∈ kvs, isScalarPy kv.2 = true) → flattenRecord kvs = .ok kvs)
  ∧ (∀ kvs b, flattenRecord kvs = .ok b → flattenRecord b = .ok b)
  ∧ (∀ kvs, (flattenRecord kvs).bind flattenRecord = flattenRecord kvs) := by
  refine ⟨flattenRecord_scalar, flattenRecord_fixed, ?_⟩
  intro kvs
  cases hk : flattenRecord kvs with
  | error e => rfl
  | ok b => simpa [hk, Except.bind] using flattenRecord_fixed kvs b hk

/-- Witness for C9 at a concrete already-flat record: flattening returns it
unchanged, and a record with one list field is a fixed point after one
flattening. -/
theorem c9_flatten_idempotent_witness :
    flattenRecord [(.str ("trackName"), .str ("Calm")),
                   (.str ("price"), .int 0)]
      = .ok [(.str ("trackName"), .str ("Calm")), (.str ("price"), .int 0)]
  ∧ (flattenRecord [(.str ("genres"), .list [.str ("Games")])]).bind flattenRecord
      = flattenRecord [(.str ("genres"), .list [.str ("Games")])] :=
  ⟨c9_flatten_idempotent.1 [(.str ("trackName"), .str ("Calm")),
      (.str ("price"), .int 0)] (by intro kv hkv; fin_cases hkv <;> rfl),
   c9_flatten_idempotent.2.2 [(.str ("genres"), .list [.str ("Games")])]⟩

/-- A well-formed lookup body that carries no matching result entry: a
mapping either without the results key or whose results list is empty. -/
def noResultEntry (resp : PyVal) : Prop :=
  (∃ kvs, resp = .dict kvs) ∧
    (pySubscript resp (.str ("results")) = .error .keyError ∨
     pySubscript resp (.str ("results")) = .ok (.list []))

/-- On a no-result body the extraction step of get_app_details yields the
not-found AppStoreException naming the normalized identifier. -/
theorem detailsExtract_noResult (resp idNorm : PyVal) (h : noResultEntry resp) :
    detailsExtract resp idNorm
      = .error (.appStoreException ("No app found with ID " ++ pyStr idNorm)) := by
  obtain ⟨⟨kvs, hk⟩, hsub⟩ := h
  rcases hsub with hs | hs <;> (simp only [detailsExtract, hs]; rfl)

/-- C5: for every valid app identifier whose (first-attempt) lookup
response is well-formed but carries no matching result entry,
get_app_details raises the checked not-found AppStoreException and its
message contains the literal identifier (its decimal rendering for a track
ID, the string itself for a bundle ID). -/
theorem c5_not_found_names_id (app_id : PyVal) (hv : validAppIdentifier app_id)
    (country lang : String) (ar fl : Bool) (s : Option Int) (force : Bool)
    (resp : PyVal) (hr : noResultEntry resp)
    (pages : String → Nat → Except Unit String) :
    ∃ msg,
      (get_app_details app_id country lang ar fl s force
          (fun _ => .ok resp) pages).result
        = .error (.appStoreException msg)
      ∧ ∃ a b, msg = a ++ pyStr app_id ++ b := by
  obtain ⟨f, hnorm⟩ := normalizeAppId_valid app_id hv
  refine ⟨"No app found with ID " ++ pyStr app_id, ?_,
    "No app found with ID ", "", by simp⟩
  have hext := detailsExtract_noResult resp app_id hr
  simp only [get_app_details, hnorm, detailsFetch, hext]

/-- Witness for C5: the numeric identifier 872 against the canonical empty
lookup body fails with a message containing 872. -/
theorem c5_not_found_names_id_witness :
    ∃ msg,
      (get_app_details (.int 872) "nl" "" false true Option.none false
          (fun _ => .ok (.dict [(.str ("resultCount"), .int 0),
                                (.str ("results"), .list [])]))
          (fun _ _ => .error ())).result
        = .error (.appStoreException msg)
      ∧ ∃ a b, msg = a ++ pyStr (.int 872) ++ b :=
  c5_not_found_names_id (.int 872) (by norm_num [validAppIdentifier])
    "nl" "" false true Option.none false
    (.dict [(.str ("resultCount"), .int 0), (.str ("results"), .list [])])
    ⟨⟨[(.str ("resultCount"), .int 0), (.str ("results"), .list [])], rfl⟩,
     Or.inr rfl⟩
    (fun _ _ => .error ())

/-- Every failure of a Python subscription is a KeyError, an IndexError or
a TypeError. -/
theorem pySubscript_error_shape (v k : PyVal) (e : PyErr)
    (h : pySubscript v k = .error e) :
    e = .keyError ∨ e = .indexError ∨ e = .typeError := by
  unfold pySubscript at h
  repeat' split at h
  all_goals simp_all
  all_goals (split_ifs at h; simp_all)

/-- Recognizes the unknown-country invalid-input failure raised by
get_store_id_for_country. -/
def isCountryNotFoundErr : PyErr → Bool
  | .appStoreException m => ("Country code not found for ").toList.isPrefixOf m.toList
  | _ => false

/-- C10: get_app_ids_for_collection lowercases any country string straight
into the chart URL and never consults the storefront table, so it can never
raise the unknown-country failure — while search, similar-apps and ratings
all fail fast (zero transport calls, no events) with exactly the
storefront-lookup error when the country is absent from the table. -/
theorem c10_collection_skips_country_table
    (collection category : String) (num : Int) (country : String)
    (resp : Except FetchErr PyVal) :
    (get_app_ids_for_collection collection category num country resp).1
      = "https://itunes.apple.com/WebObjects/MZStoreServices.woa/ws/charts?cc="
        ++ pyLower country ++ "&g=" ++ category ++ "&name="
        ++ (if collection = "" then topFreeIOSCollection else collection)
        ++ "&limit=" ++ toString num
  ∧ (∀ e, (get_app_ids_for_collection collection category num country resp).2.result
        = .error e → isCountryNotFoundErr e = false)
  ∧ (∀ e0, get_store_id_for_country country = .error e0 →
      (∀ (term lang : String) (num2 page2 : Option Int)
          (resp2 : Except FetchErr PyVal), term ≠ "" →
        get_app_ids_for_query (some term) num2 page2 country lang resp2
          = ⟨.error e0, 0⟩)
      ∧ (∀ (aid : PyVal) (lang : String) (fetch : Except Unit String)
            (J : String → Except Unit PyVal),
          get_similar_app_ids_for_app aid country lang fetch J = ⟨.error e0, 0⟩)
      ∧ (∀ (aid : PyVal) (s : Option Int)
            (pages : String → Nat → Except Unit String),
          get_app_ratings aid (some (Sum.inl country)) s pages
            = (.error e0, []))) := by
  refine ⟨?_, ?_, ?_⟩
  · cases resp with
    | error fe => cases fe <;> rfl
    | ok v => rfl
  · intro e he
    cases resp with
    | error fe =>
      cases fe with
      | conn m =>
        simp [get_app_ids_for_collection] at he
        rw [← he]
        rfl
      | jsonDecode =>
        simp [get_app_ids_for_collection] at he
        rw [← he]
        rfl
      | otherExc =>
        simp [get_app_ids_for_collection] at he
        rw [← he]
        rfl
    | ok v =>
      simp [get_app_ids_for_collection] at he
      rcases pySubscript_error_shape v (.str ("resultIds")) e he with h | h | h <;>
        rw [h] <;> rfl
  · intro e0 he
    refine ⟨?_, ?_, ?_⟩
    · intro term lang num2 page2 resp2 hterm
      simp [get_app_ids_for_query, hterm, he]
    · intro aid lang fetch J
      simp [get_similar_app_ids_for_app, he]
    · intro aid s pages
      simp [get_app_ratings, ratingsLoop, he]

/-- Witness for C10 at concrete inputs: the unknown code xz reaches the
chart URL lowercased and yields a parse failure rather than the
unknown-country failure, while search on xz fails before any transport
call with the unknown-country failure. -/
theorem c10_collection_skips_country_table_witness :
    (get_app_ids_for_collection "" "" 50 "XZ" (.error .jsonDecode)).1
      = "https://itunes.apple.com/WebObjects/MZStoreServices.woa/ws/charts?cc="
        ++ pyLower "XZ" ++ "&g=" ++ "" ++ "&name="
        ++ (if ("" : String) = "" then topFreeIOSCollection else "")
        ++ "&limit=" ++ toString (50 : Int)
  ∧ isCountryNotFoundErr
      (.appStoreException ("Could not parse app store response")) = false
  ∧ get_app_ids_for_query (some "mindful") (some 50) (some 1) "XZ" "en"
        (.ok (.dict []))
      = ⟨.error (.appStoreException ("Country code not found for XZ")), 0⟩ := by
  have h := c10_collection_skips_country_table "" "" 50 "XZ" (.error .jsonDecode)
  refine ⟨h.1, ?_, ?_⟩
  · exact h.2.1 (.appStoreException ("Could not parse app store response"))
      (by rfl)
  · exact (h.2.2 (.appStoreException ("Country code not found for XZ"))
      (by rfl)).1 "mindful" "en" (some 50) (some 1) (.ok (.dict [])) (by simp)

/-- Unfolding equation of the effectful comprehension on a non-empty
list. -/
theorem exceptMapList_cons {α β : Type} (f : α → Except PyErr β) (a : α)
    (l : List α) :
    exceptMapList f (a :: l)
      = (f a).bind (fun b =>
          (exceptMapList f l).bind (fun bs => .ok (b :: bs))) := by
  simp only [exceptMapList]
  cases f a with
  | error e => rfl
  | ok b =>
    cases exceptMapList f l with
    | error e => rfl
    | ok bs => rfl

/-- A successful effectful comprehension restricted to a prefix of its
input yields the corresponding prefix of its output. -/
theorem exceptMapList_take {α β : Type} (f : α → Except PyErr β)
    (l : List α) (ids : List β) (h : exceptMapList f l = .ok ids) (k : Nat) :
    exceptMapList f (l.take k) = .ok (ids.take k) := by
  induction l generalizing ids k with
  | nil => cases h; simp [exceptMapList]
  | cons a l ih =>
    rw [exceptMapList_cons] at h
    cases hfa : f a with
    | error e => rw [hfa] at h; exact absurd h (by simp [Except.bind])
    | ok b =>
      rw [hfa] at h
      cases hl : exceptMapList f l with
      | error e => rw [hl] at h; exact absurd h (by simp [Except.bind])
      | ok bs =>
        rw [hl] at h
        simp only [Except.bind] at h
        cases h
        cases k with
        | zero => simp [exceptMapList]
        | succ k =>
          rw [List.take_succ_cons, List.take_succ_cons, exceptMapList_cons,
            hfa, ih bs hl k]
          rfl

/-- C4: for every non-empty search term and counts c and p, the search
operation returns the ids of the first c * p entries of the first results
group of the parsed body: at most c * p identifiers, a prefix of the
group's id sequence in server order. -/
theorem c4_search_prefix_bound (term : String) (hterm : term ≠ "")
    (c p : Nat) (country lang : String) (sid : Int)
    (hsid : get_store_id_for_country country = .ok sid)
    (kvs bkvs : List (PyVal × PyVal)) (bs apps ids : List PyVal)
    (hbub : kvs.find? (fun kv => pyBeq kv.1 (.str ("bubbles")))
        = some (.str ("bubbles"), .list (PyVal.dict bkvs :: bs)))
    (hres : bkvs.find? (fun kv => pyBeq kv.1 (.str ("results")))
        = some (.str ("results"), .list apps))
    (hids : exceptMapList (fun app => pySubscript app (.str ("id"))) apps
        = .ok ids) :
    (get_app_ids_for_query (some term) (some (c : Int)) (some (p : Int))
        country lang (.ok (.dict kvs))).result
      = .ok (ids.take (c * p))
    ∧ (ids.take (c * p)).length ≤ c * p
    ∧ ids.take (c * p) <+: ids := by
  have hany : kvs.any (fun kv => pyBeq kv.1 (.str ("bubbles"))) = true :=
    List.any_eq_true.mpr
      ⟨_, List.mem_of_find?_eq_some hbub,
        @List.find?_some _ (fun kv => pyBeq kv.1 (.str ("bubbles"))) _ kvs hbub⟩
  have hsub : pySubscript (.dict kvs) (.str ("bubbles"))
      = .ok (.list (PyVal.dict bkvs :: bs)) := by
    simp [pySubscript, hbub]
  have hsub2 : pySubscript (.list (PyVal.dict bkvs :: bs)) (.int 0)
      = .ok (.dict bkvs) := by
    simp [pySubscript]
  have hsub3 : pySubscript (.dict bkvs) (.str ("results"))
      = .ok (.list apps) := by
    simp [pySubscript, hres]
  have hslice : pySliceTo (.list apps) (some ((c : Int) * (p : Int)))
      = .ok (apps.take (c * p)) := by
    simp only [pySliceTo]
    have hnn : (0 : Int) ≤ (c : Int) * (p : Int) := by positivity
    rw [if_neg (not_lt.mpr hnn)]
    have hcast : ((c : Int) * (p : Int)).toNat = c * p := by
      rw [show ((c : Int) * (p : Int)) = ((c * p : Nat) : Int) by push_cast; ring,
        Int.toNat_natCast]
    rw [hcast]
  have hmap := exceptMapList_take
    (fun app => pySubscript app (.str ("id"))) apps ids hids (c * p)
  refine ⟨?_, by simp, List.take_prefix (c * p) ids⟩
  simp only [get_app_ids_for_query]
  rw [if_neg (by simp [hterm])]
  rw [hsid]
  simp only [searchExtract, pyContains, hany, hsub, hsub2, hsub3, hslice, hmap]
  simp [pyTruthy]

/-- Witness for C4: a three-entry results group with c = 2, p = 1 yields
exactly the first two ids. -/
theorem c4_search_prefix_bound_witness :
    (get_app_ids_for_query (some "mindful") (some ((2 : Nat) : Int))
        (some ((1 : Nat) : Int)) "gb" "en"
        (.ok (.dict [(.str ("bubbles"),
          .list [.dict [(.str ("results"),
            .list [.dict [(.str ("id"), .int 11)],
                   .dict [(.str ("id"), .int 22)],
                   .dict [(.str ("id"), .int 33)]])]])]))).result
      = .ok ([PyVal.int 11, PyVal.int 22, PyVal.int 33].take (2 * 1)) :=
  (c4_search_prefix_bound "mindful" (by simp) 2 1 "gb" "en" 143444 (by rfl)
    [(.str ("bubbles"),
      .list [.dict [(.str ("results"),
        .list [.dict [(.str ("id"), .int 11)],
               .dict [(.str ("id"), .int 22)],
               .dict [(.str ("id"), .int 33)]])]])]
    [(.str ("results"),
      .list [.dict [(.str ("id"), .int 11)],
             .dict [(.str ("id"), .int 22)],
             .dict [(.str ("id"), .int 33)]])]
    []
    [.dict [(.str ("id"), .int 11)], .dict [(.str ("id"), .int 22)],
     .dict [(.str ("id"), .int 33)]]
    [PyVal.int 11, PyVal.int 22, PyVal.int 33]
    (by rfl) (by rfl) (by rfl)).1

/-- C8: the similar-apps operation returns the empty list without raising
whenever the marker token is absent from the page text, or the
bracket-bounded blob after the marker is missing, or the blob fails to
parse as JSON; and a failure of the operation can only come from below the
extraction step (here: the transport itself, the storefront lookup being
assumed resolved). -/
theorem c8_similar_best_effort (app_id : PyVal) (country lang : String)
    (sid : Int) (hsid : get_store_id_for_country country = .ok sid)
    (text : String) (J : String → Except Unit PyVal) :
    (strContains text ("customersAlsoBoughtApps") = false →
      (get_similar_app_ids_for_app app_id country lang (.ok text) J).result
        = .ok (.list []))
  ∧ (regexSearchBlob text = Option.none →
      (get_similar_app_ids_for_app app_id country lang (.ok text) J).result
        = .ok (.list []))
  ∧ (∀ blob, regexSearchBlob text = some blob → J blob = .error () →
      (get_similar_app_ids_for_app app_id country lang (.ok text) J).result
        = .ok (.list []))
  ∧ (∀ (fetch : Except Unit String) (e : PyErr),
      (get_similar_app_ids_for_app app_id country lang fetch J).result
          = .error e →
      fetch = .error ()) := by
  refine ⟨?_, ?_, ?_, ?_⟩
  · intro hmk
    simp [get_similar_app_ids_for_app, hsid, hmk]
  · intro hblob
    by_cases hmk : strContains text ("customersAlsoBoughtApps") = true
    · simp [get_similar_app_ids_for_app, hsid, hmk, hblob]
    · simp [get_similar_app_ids_for_app, hsid,
        Bool.not_eq_true _ ▸ hmk, eq_false_of_ne_true hmk]
  · intro blob hblob hJ
    by_cases hmk : strContains text ("customersAlsoBoughtApps") = true
    · simp [get_similar_app_ids_for_app, hsid, hmk, hblob, hJ]
    · simp [get_similar_app_ids_for_app, hsid, eq_false_of_ne_true hmk]
  · intro fetch e he
    cases fetch with
    | error u => rfl
    | ok t =>
      exfalso
      simp only [get_similar_app_ids_for_app, hsid] at he
      by_cases hmk : strContains t ("customersAlsoBoughtApps") = true
      · rw [if_neg (by simp [hmk])] at he
        cases hb : regexSearchBlob t with
        | none => rw [hb] at he; exact absurd he (by simp)
        | some blob =>
          rw [hb] at he
          cases hJ : J blob with
          | error u => simp [hJ] at he
          | ok ids => simp [hJ] at he
      · rw [if_pos (by simp [eq_false_of_ne_true hmk])] at he
        exact absurd he (by simp)

/-- Witness for C8 at a concrete page that lacks the marker token: the
result is the empty list. -/
theorem c8_similar_best_effort_witness :
    (get_similar_app_ids_for_app (.int 500) "gb" "en"
        (.ok ("<html><body>plain app page</body></html>"))
        (fun _ => .error ())).result = .ok (.list []) :=
  (c8_similar_best_effort (.int 500) "gb" "en" 143444 (by rfl)
      "<html><body>plain app page</body></html>" (fun _ => .error ())).1
    (by rfl)

/-- The all-zero histogram is the zero of the componentwise monoid. -/
theorem histZero_eq_zero : histZero = (0 : Hist) := rfl

/-- When every country of the list resolves in the market table, its page
fetch succeeds at the first attempt and its page parses (to five buckets or
to None), the ratings loop returns the accumulator plus the sum of the
per-country histograms, a None parse contributing zero. -/
theorem ratingsLoop_ok_sum (app_id : PyVal) (sleep : Option Int)
    (pages : String → Nat → Except Unit String) (page : String → String)
    (r : String → Option Hist) (countries : List String) (acc : Hist)
    (hfetch : ∀ c ∈ countries, pages c 0 = .ok (page c))
    (hstore : ∀ c ∈ countries, ∃ sid, get_store_id_for_country c = .ok sid)
    (hparse : ∀ c ∈ countries, parse_rating (page c) = .ok (r c)) :
    (ratingsLoop app_id sleep pages countries acc).1
      = .ok (acc + (countries.map (fun c => (r c).getD histZero)).sum) := by
  induction countries generalizing acc with
  | nil => simp [ratingsLoop]
  | cons c cs ih =>
    obtain ⟨sid, hsid⟩ := hstore c (List.mem_cons_self c cs)
    have hf := hfetch c (List.mem_cons_self c cs)
    have hp := hparse c (List.mem_cons_self c cs)
    have ihcs := fun acc2 => ih acc2
      (fun x hx => hfetch x (List.mem_cons_of_mem c hx))
      (fun x hx => hstore x (List.mem_cons_of_mem c hx))
      (fun x hx => hparse x (List.mem_cons_of_mem c hx))
    simp only [ratingsLoop, hsid, hf, hp]
    cases hr : r c with
    | none =>
      rw [hr] at hp
      simp only [hp, ihcs acc]
      simp [hr, histZero_eq_zero]
    | some h =>
      rw [hr] at hp
      simp only [hp, ihcs (acc + h)]
      simp [hr, add_assoc]

/-- C2: with every supplied country resolving, fetching at first attempt
and parsing, get_app_ratings returns exactly the elementwise sum of the
per-country five-bucket histograms starting from the all-zero histogram;
the aggregate is invariant under permutation of the country list, and a
country whose page parses to None (not exactly five matches) contributes
the zero histogram, leaving the aggregate unchanged. -/
theorem c2_ratings_additive (app_id : PyVal) (sleep : Option Int)
    (countries : List String)
    (pages : String → Nat → Except Unit String) (page : String → String)
    (r : String → Option Hist)
    (hfetch : ∀ c ∈ countries, pages c 0 = .ok (page c))
    (hstore : ∀ c ∈ countries, ∃ sid, get_store_id_for_country c = .ok sid)
    (hparse : ∀ c ∈ countries, parse_rating (page c) = .ok (r c)) :
    (get_app_ratings app_id (some (Sum.inr countries)) sleep pages).1
        = .ok ((countries.map (fun c => (r c).getD histZero)).sum)
  ∧ (∀ countries2, countries2.Perm countries →
      (get_app_ratings app_id (some (Sum.inr countries2)) sleep pages).1
        = (get_app_ratings app_id (some (Sum.inr countries)) sleep pages).1)
  ∧ (∀ c0, pages c0 0 = .ok (page c0) →
      (∃ sid, get_store_id_for_country c0 = .ok sid) →
      parse_rating (page c0) = .ok (r c0) → r c0 = Option.none →
      (get_app_ratings app_id (some (Sum.inr (countries ++ [c0]))) sleep pages).1
        = (get_app_ratings app_id (some (Sum.inr countries)) sleep pages).1) := by
  have hmain : (get_app_ratings app_id (some (Sum.inr countries)) sleep pages).1
      = .ok ((countries.map (fun c => (r c).getD histZero)).sum) := by
    show (ratingsLoop app_id sleep pages countries histZero).1 = _
    rw [ratingsLoop_ok_sum app_id sleep pages page r countries histZero
      hfetch hstore hparse, histZero_eq_zero, zero_add]
  refine ⟨hmain, ?_, ?_⟩
  · intro countries2 hp2
    have hmem : ∀ c, c ∈ countries2 → c ∈ countries := fun c hc => hp2.mem_iff.mp hc
    have h2 : (get_app_ratings app_id (some (Sum.inr countries2)) sleep pages).1
        = .ok ((countries2.map (fun c => (r c).getD histZero)).sum) := by
      show (ratingsLoop app_id sleep pages countries2 histZero).1 = _
      rw [ratingsLoop_ok_sum app_id sleep pages page r countries2 histZero
        (fun c hc => hfetch c (hmem c hc)) (fun c hc => hstore c (hmem c hc))
        (fun c hc => hparse c (hmem c hc)), histZero_eq_zero, zero_add]
    rw [h2, hmain]
    exact congrArg Except.ok ((hp2.map (fun c => (r c).getD histZero)).sum_eq)
  · intro c0 hf0 hs0 hp0 hr0
    have hext : ∀ c ∈ countries ++ [c0], pages c 0 = .ok (page c) := by
      intro c hc
      rcases List.mem_append.mp hc with hc | hc
      · exact hfetch c hc
      · rw [List.mem_singleton.mp hc]; exact hf0
    have hsto : ∀ c ∈ countries ++ [c0], ∃ sid, get_store_id_for_country c = .ok sid := by
      intro c hc
      rcases List.mem_append.mp hc with hc | hc
      · exact hstore c hc
      · rw [List.mem_singleton.mp hc]; exact hs0
    have hpar : ∀ c ∈ countries ++ [c0], parse_rating (page c) = .ok (r c) := by
      intro c hc
      rcases List.mem_append.mp hc with hc | hc
      · exact hparse c hc
      · rw [List.mem_singleton.mp hc]; exact hp0
    have h3 : (get_app_ratings app_id (some (Sum.inr (countries ++ [c0]))) sleep pages).1
        = .ok (((countries ++ [c0]).map (fun c => (r c).getD histZero)).sum) := by
      show (ratingsLoop app_id sleep pages (countries ++ [c0]) histZero).1 = _
      rw [ratingsLoop_ok_sum app_id sleep pages page r (countries ++ [c0]) histZero
        hext hsto hpar, histZero_eq_zero, zero_add]
    rw [h3, hmain]
    simp [hr0, histZero_eq_zero]

set_option maxRecDepth 100000 in
/-- Witness for C2 at a concrete two-country environment matching the
spec's example shape: one country supplies the histogram
(1, 2, 3, 4 and 5 stars in order) and the other yields no data,
aggregating to the first histogram. -/
theorem c2_ratings_additive_witness :
    (get_app_ratings (.int 5) (some (Sum.inr ["gb", "nl"])) (some 1)
        (fun c _ => .ok (if c = "gb" then
          "<span class=\"total\">10</span><span class=\"total\">2</span><span class=\"total\">1</span><span class=\"total\">0</span><span class=\"total\">0</span>"
          else "no reviews here"))).1
      = .ok ((0, 0, 1, 2, 10) : Hist) := by
  have h := (c2_ratings_additive (.int 5) (some 1) ["gb", "nl"]
    (fun c _ => .ok (if c = "gb" then
      "<span class=\"total\">10</span><span class=\"total\">2</span><span class=\"total\">1</span><span class=\"total\">0</span><span class=\"total\">0</span>"
      else "no reviews here"))
    (fun c => if c = "gb" then
      "<span class=\"total\">10</span><span class=\"total\">2</span><span class=\"total\">1</span><span class=\"total\">0</span><span class=\"total\">0</span>"
      else "no reviews here")
    (fun c => if c = "gb" then some ((0, 0, 1, 2, 10) : Hist) else Option.none)
    (by intro c hc; fin_cases hc <;> rfl)
    (by intro c hc; fin_cases hc
        · exact ⟨143444, by rfl⟩
        · exact ⟨143452, by rfl⟩)
    (by intro c hc; fin_cases hc <;> rfl)).1
  rw [h]
  rfl

/-- C3: the one-retry-with-fixed-backoff policy is exactly where the spec
places it.  In get_app_details and get_app_ratings a successful first
transport attempt makes one call; a first failure is followed by the fixed
backoff sleep of 2 and exactly one retry whose success continues the
operation as if the transport had answered immediately; a second failure is
the terminal checked AppStoreException naming the app identifier.  Search
and collection listing make exactly one transport call and surface the
first transport or parse error directly; developer listing and similar-apps
also make exactly one transport call. -/
theorem c3_retry_policy_scope (app_id : PyVal) (hv : validAppIdentifier app_id)
    (country lang : String) (s : Option Int) (force : Bool)
    (att : Nat → Except Unit PyVal)
    (pages : String → Nat → Except Unit String) (cRat : String) (sidR : Int)
    (hsidR : get_store_id_for_country cRat = .ok sidR) :
    (∀ r, att 0 = .ok r →
      (get_app_details app_id country lang false true s force att pages).events
        = sleepEvents s ++ [Event.call])
  ∧ (∀ r, att 0 = .error () → att 1 = .ok r →
      (get_app_details app_id country lang false true s force att pages).events
          = sleepEvents s ++ [Event.call, Event.sleep 2, Event.call]
      ∧ (get_app_details app_id country lang false true s force att pages).result
          = (get_app_details app_id country lang false true s force
              (fun _ => .ok r) pages).result)
  ∧ (att 0 = .error () → att 1 = .error () →
      (get_app_details app_id country lang false true s force att pages).result
          = .error (.appStoreException
              ("Could not parse app store response for ID " ++ pyStr app_id))
      ∧ (get_app_details app_id country lang false true s force att pages).events
          = sleepEvents s ++ [Event.call, Event.sleep 2, Event.call])
  ∧ (∀ t, pages cRat 0 = .ok t →
      (get_app_ratings app_id (some (Sum.inl cRat)) s pages).2
        = sleepEvents s ++ [Event.call])
  ∧ (∀ t, pages cRat 0 = .error () → pages cRat 1 = .ok t →
      (get_app_ratings app_id (some (Sum.inl cRat)) s pages).2
          = sleepEvents s ++ [Event.call, Event.sleep 2, Event.call]
      ∧ (get_app_ratings app_id (some (Sum.inl cRat)) s pages).1
          = (get_app_ratings app_id (some (Sum.inl cRat)) s
              (fun _ _ => .ok t)).1)
  ∧ (pages cRat 0 = .error () → pages cRat 1 = .error () →
      (get_app_ratings app_id (some (Sum.inl cRat)) s pages).1
        = .error (.appStoreException
            ("Could not parse app store rating response for ID " ++ pyStr app_id)))
  ∧ (∀ (term : String) (num page2 : Option Int) (lang2 : String) (sid : Int)
        (resp : Except FetchErr PyVal), term ≠ "" →
      get_store_id_for_country country = .ok sid →
      (get_app_ids_for_query (some term) num page2 country lang2 resp).calls = 1
      ∧ (∀ m, resp = .error (.conn m) →
          (get_app_ids_for_query (some term) num page2 country lang2 resp).result
            = .error (.appStoreException ("Cannot connect to store: " ++ m)))
      ∧ (resp = .error .jsonDecode →
          (get_app_ids_for_query (some term) num page2 country lang2 resp).result
            = .error (.appStoreException ("Could not parse app store response"))))
  ∧ (∀ (coll cat : String) (num : Int) (c2 : String)
        (resp : Except FetchErr PyVal),
      (get_app_ids_for_collection coll cat num c2 resp).2.calls = 1
      ∧ (resp = .error .jsonDecode →
          (get_app_ids_for_collection coll cat num c2 resp).2.result
            = .error (.appStoreException ("Could not parse app store response"))))
  ∧ (∀ resp : Except FetchErr PyVal, (get_apps_for_developer resp).calls = 1)
  ∧ (∀ (aid : PyVal) (lang2 : String) (fetch : Except Unit String)
        (J : String → Except Unit PyVal),
      (get_similar_app_ids_for_app aid cRat lang2 fetch J).calls = 1) := by
  obtain ⟨f, hnorm⟩ := normalizeAppId_valid app_id hv
  refine ⟨?_, ?_, ?_, ?_, ?_, ?_, ?_, ?_, ?_, ?_⟩
  · intro r h0
    simp only [get_app_details, hnorm, detailsFetch, h0]
    cases detailsExtract r app_id <;> simp
  · intro r h0 h1
    constructor
    · simp only [get_app_details, hnorm, detailsFetch, h0, h1]
      cases detailsExtract r app_id <;> simp
    · simp only [get_app_details, hnorm, detailsFetch, h0, h1]
      cases detailsExtract r app_id <;> simp
  · intro h0 h1
    constructor
    · simp only [get_app_details, hnorm, detailsFetch, h0, h1]
    · simp only [get_app_details, hnorm, detailsFetch, h0, h1]
  · intro t h0
    show (ratingsLoop app_id s pages [cRat] histZero).2 = _
    simp only [ratingsLoop, hsidR, h0]
    cases parse_rating t with
    | error e => simp
    | ok o => cases o <;> simp [ratingsLoop]
  · intro t h0 h1
    constructor
    · show (ratingsLoop app_id s pages [cRat] histZero).2 = _
      simp only [ratingsLoop, hsidR, h0, h1]
      cases parse_rating t with
      | error e => simp
      | ok o => cases o <;> simp [ratingsLoop]
    · show (ratingsLoop app_id s pages [cRat] histZero).1
        = (ratingsLoop app_id s (fun _ _ => .ok t) [cRat] histZero).1
      simp only [ratingsLoop, hsidR, h0, h1]
      cases parse_rating t with
      | error e => simp
      | ok o => cases o <;> simp [ratingsLoop]
  · intro h0 h1
    show (ratingsLoop app_id s pages [cRat] histZero).1 = _
    simp only [ratingsLoop, hsidR, h0, h1]
  · intro term num page2 lang2 sid resp hterm hsid
    refine ⟨?_, ?_, ?_⟩
    · simp only [get_app_ids_for_query]
      rw [if_neg (by simp [hterm])]
      rw [hsid]
      cases resp with
      | error fe => cases fe <;> rfl
      | ok v => rfl
    · intro m hm
      subst hm
      simp only [get_app_ids_for_query]
      rw [if_neg (by simp [hterm])]
      rw [hsid]
    · intro hm
      subst hm
      simp only [get_app_ids_for_query]
      rw [if_neg (by simp [hterm])]
      rw [hsid]
  · intro coll cat num c2 resp
    refine ⟨?_, ?_⟩
    · cases resp with
      | error fe => cases fe <;> rfl
      | ok v => rfl
    · intro hm
      subst hm
      rfl
  · intro resp
    cases resp with
    | error fe => cases fe <;> rfl
    | ok v =>
      simp only [get_apps_for_developer]
      cases pyContains v (.str ("results")) with
      | error e => rfl
      | ok b =>
        cases b with
        | false => rfl
        | true =>
          cases pySubscript v (.str ("results")) with
          | error e => rfl
          | ok r => cases r <;> rfl
  · intro aid lang2 fetch J
    simp only [get_similar_app_ids_for_app, hsidR]
    repeat' split
    all_goals rfl

/-- Witness for C3 at concrete inputs: a transport that fails both
attempts makes exactly one retry after the fixed backoff sleep and ends in
the terminal checked failure naming app id 7. -/
theorem c3_retry_policy_scope_witness :
    (get_app_details (.int 7) "nl" "" false true Option.none false
        (fun _ => .error ()) (fun _ _ => .error ())).result
      = .error (.appStoreException
          ("Could not parse app store response for ID " ++ pyStr (.int 7)))
  ∧ (get_app_details (.int 7) "nl" "" false true Option.none false
        (fun _ => .error ()) (fun _ _ => .error ())).events
      = sleepEvents Option.none ++ [Event.call, Event.sleep 2, Event.call] :=
  (c3_retry_policy_scope (.int 7) (by norm_num [validAppIdentifier])
    "nl" "" Option.none false (fun _ => .error ()) (fun _ _ => .error ())
    "gb" 143444 (by rfl)).2.2.1 rfl rfl

/-- C1: whenever every per-identifier detail fetch either succeeds or
raises the checked AppStoreException, consuming the batch generator yields
exactly the successful records in input order — identifiers whose fetch
raised the checked failure are omitted — and appends, per failing
identifier, its message to the country-keyed error log; the iteration
itself raises nothing. -/
theorem c1_batch_swallows_checked_failures (app_ids : List PyVal)
    (country lang : String) (ar : Bool) (s : Option Int) (force : Bool)
    (att : PyVal → Nat → Except Unit PyVal)
    (pages : PyVal → String → Nat → Except Unit String)
    (h : ∀ a ∈ app_ids,
      (∃ v, (get_app_details a country lang ar true s force (att a)
          (pages a)).result = .ok v)
      ∨ (∃ m, (get_app_details a country lang ar true s force (att a)
          (pages a)).result = .error (.appStoreException m))) :
    get_multiple_app_details app_ids country lang ar s force att pages
      = (.ok (app_ids.filterMap (fun a =>
            ((get_app_details a country lang ar true s force (att a)
                (pages a)).result).toOption)),
         app_ids.flatMap (fun a =>
           (get_app_details a country lang ar true s force (att a)
               (pages a)).logs
           ++ (match (get_app_details a country lang ar true s force (att a)
                 (pages a)).result with
               | .error (.appStoreException m) => [(country, m)]
               | _ => []))) := by
  induction app_ids with
  | nil => rfl
  | cons a rest ih =>
    have hrest := ih (fun x hx => h x (List.mem_cons_of_mem a hx))
    rcases h a (List.mem_cons_self a rest) with ⟨v, hva⟩ | ⟨m, hma⟩
    · simp only [get_multiple_app_details, hva, hrest, List.filterMap_cons,
        List.flatMap_cons, Except.toOption]
      simp [Except.map]
    · simp only [get_multiple_app_details, hma, hrest, List.filterMap_cons,
        List.flatMap_cons, Except.toOption]

/-- Witness for C1: a batch of one bad identifier (the lookup body carries
no result) yields the empty output and exactly one log entry under the
country key carrying the not-found message. -/
theorem c1_batch_swallows_checked_failures_witness :
    get_multiple_app_details [.str ("872")] "nl" "" false (some 1) false
        (fun _ _ => .ok (.dict [(.str ("resultCount"), .int 0),
                                (.str ("results"), .list [])]))
        (fun _ _ _ => .error ())
      = (.ok [], [("nl", "No app found with ID 872")]) := by
  have h := c1_batch_swallows_checked_failures [.str ("872")] "nl" "" false
    (some 1) false
    (fun _ _ => .ok (.dict [(.str ("resultCount"), .int 0),
                            (.str ("results"), .list [])]))
    (fun _ _ _ => .error ())
    (by
      intro a ha
      rw [List.mem_singleton.mp ha]
      exact Or.inr ⟨"No app found with ID 872", by rfl⟩)
  rw [h]
  rfl

end ITunesScraper
